import Mathlib

/-!
Verification development for the Medicard hospital-management backend,
focused on the Clinical Decision Support (CDS) and order-admission core:
`hms_app_pkg/cds/services.py`, `hms_app_pkg/cpoe/services.py` and
`hms_app_pkg/cpoe/routes.py`.

The Python code is shallowly embedded: JSON-ish dynamic values become the
`PyVal` inductive, ORM rows become structures, the database session becomes
an explicit `DB` record of row lists, queries become list searches, and the
exceptions `ValueError` / `TypeError` / `AttributeError` that the dose-range
check can raise or catch become an `Except PyErr` result.  Python `float`
values are modelled by the exact-fraction type `PyNum` (the doses appearing
in the code and its seed data are small decimal literals, for which exact
rational comparison agrees with IEEE semantics).
-/

namespace Medicard

/-- A Python float, as an exact fraction `num / den`.  The embedding only
ever builds values with a positive power-of-ten denominator, for which
exact rational comparison agrees with IEEE comparison on the small decimal
literals the repository handles.  Values are deliberately kept
unnormalised; every semantic use goes through `PyNum.le` / `PyNum.isZero`,
which are representation-independent.  (Mathlib `ℚ` is avoided because its
arithmetic does not reduce in the kernel, which would leave concrete
evaluations unprovable by `decide`.) -/
structure PyNum where
  num : Int
  den : Nat
deriving DecidableEq

/-- The float `0.0`. -/
def PyNum.zero : PyNum := { num := 0, den := 1 }

/-- A whole-number float. -/
def PyNum.ofNat (n : Nat) : PyNum := { num := (n : Int), den := 1 }

/-- Unary negation. -/
def PyNum.neg (a : PyNum) : PyNum := { num := -a.num, den := a.den }

/-- `a == 0` for a float. -/
def PyNum.isZero (a : PyNum) : Bool := a.num == 0

/-- `a <= b` on floats: cross-multiplication with the (positive)
denominators. -/
def PyNum.le (a b : PyNum) : Bool :=
  decide (a.num * (b.den : Int) ≤ b.num * (a.den : Int))

/-- Display of a float inside an f-string (as an exact fraction). -/
def PyNum.render (a : PyNum) : String :=
  toString a.num ++ "/" ++ toString a.den

/-- A JSON-ish scalar value as found in Python request payloads.  Compound
values (nested lists/objects) do not occur in any code path the claims
touch, so the model keeps scalars only. -/
inductive PyVal where
  | none : PyVal
  | bool : Bool → PyVal
  | num : PyNum → PyVal
  | str : String → PyVal
deriving DecidableEq

/-- The Python exceptions relevant to the CDS code: `_check_dose_range`
catches exactly `ValueError`, `TypeError` and `AttributeError` around its
dose parse, and an uncaught `AttributeError` can escape from
`ordered_unit.lower()`. -/
inductive PyErr where
  | valueError : PyErr
  | typeError : PyErr
  | attributeError : PyErr
deriving DecidableEq

deriving instance DecidableEq for Except

/-- A Python dict with string keys, as an association list (first binding
wins, mirroring unique dict keys). -/
def PyDict := List (String × PyVal)

instance : DecidableEq PyDict := by
  unfold PyDict
  infer_instance

/-- `d.get(k)` — `None` when the key is absent. -/
def dictGet (d : PyDict) (k : String) : PyVal :=
  match d.find? (fun p => p.1 == k) with
  | Option.some p => p.2
  | Option.none => PyVal.none

/-- `d.get(k, default)` — the default only when the key is absent. -/
def dictGetD (d : PyDict) (k : String) (default : PyVal) : PyVal :=
  match d.find? (fun p => p.1 == k) with
  | Option.some p => p.2
  | Option.none => default

/-- `k in d` for a Python dict. -/
def hasKey (d : PyDict) (k : String) : Bool :=
  d.any (fun p => p.1 == k)

/-- Python truthiness of a scalar: `None`, `False`, `0` and `""` are falsy. -/
def pyTruthy : PyVal → Bool
  | PyVal.none => false
  | PyVal.bool b => b
  | PyVal.num q => !q.isZero
  | PyVal.str s => s != ""

/-- Lowercasing as Python `str.lower()` (character-wise; the repository
only ever lowers ASCII names).  Defined over the character list so that
proofs can evaluate it, unlike the opaque core `String.toLower`. -/
def strLower (s : String) : String :=
  ⟨s.data.map Char.toLower⟩

/-- Whitespace stripped by Python `float(...)` around a numeric string. -/
def isSpaceChar (c : Char) : Bool :=
  c == ' ' || c == '\t' || c == '\n' || c == '\r'

/-- Digit run to a natural number (caller guarantees the characters are
decimal digits). -/
def digitsVal (l : List Char) : Nat :=
  l.foldl (fun n c => n * 10 + (c.toNat - 48)) 0

/-- Unsigned decimal literal accepted by Python `float(...)`: `"81"`,
`"2.5"`, `"1."`, `".5"`; rejects `""`, `"."` and anything with a non-digit.
(Exponent forms and `inf`/`nan` are outside the inputs the repository ever
constructs and are not modelled.) -/
def parseUnsignedChars (l : List Char) : Option PyNum :=
  let a := l.takeWhile (fun c => c != '.')
  match l.dropWhile (fun c => c != '.') with
  | [] =>
      if a ≠ [] ∧ a.all Char.isDigit then Option.some (PyNum.ofNat (digitsVal a))
      else Option.none
  | _ :: b =>
      if ¬ b.contains '.' ∧ (a ≠ [] ∨ b ≠ []) ∧ a.all Char.isDigit ∧ b.all Char.isDigit then
        Option.some
          { num := ((digitsVal a * 10 ^ b.length + digitsVal b : Nat) : Int),
            den := 10 ^ b.length }
      else Option.none

/-- Python `float(string)`: optional surrounding whitespace and sign, then
an unsigned decimal literal. -/
def parseFloat (s : String) : Option PyNum :=
  match (s.data.dropWhile isSpaceChar).reverse.dropWhile isSpaceChar |>.reverse with
  | '-' :: rest => (parseUnsignedChars rest).map PyNum.neg
  | '+' :: rest => parseUnsignedChars rest
  | t => parseUnsignedChars t

/-- Python `float(v)` on a scalar: numbers pass through, bools coerce to
0/1, strings are parsed (`ValueError` on failure), `None` raises
`TypeError`. -/
def pyFloat : PyVal → Except PyErr PyNum
  | PyVal.num q => Except.ok q
  | PyVal.bool b => Except.ok (PyNum.ofNat (if b then 1 else 0))
  | PyVal.str s =>
      match parseFloat s with
      | Option.some q => Except.ok q
      | Option.none => Except.error PyErr.valueError
  | PyVal.none => Except.error PyErr.typeError

/-- Python `v.lower()`: only strings have the attribute; any other value
raises `AttributeError`. -/
def pyLower : PyVal → Except PyErr String
  | PyVal.str s => Except.ok (strLower s)
  | _ => Except.error PyErr.attributeError

/-- `needle.isPrefixOf hay` at some suffix of `hay`: the Python substring
test `needle in hay` (in particular `"" in hay` is true). -/
def listSub (needle : List Char) : List Char → Bool
  | [] => needle.isEmpty
  | c :: rest => needle.isPrefixOf (c :: rest) || listSub needle rest

/-- Python `needle in hay` on strings. -/
def strIn (needle hay : String) : Bool :=
  listSub needle.toList hay.toList

/-! ## Data model (`hms_app_pkg/models.py`)

Only the columns the embedded code paths read are carried.  Note on the
dose columns: `_check_dose_range` reads `min_dose`, `max_dose` and
`default_dose_unit` from `OrderableItem`, and the admin seeding in
`hms_app_pkg/admin/routes.py` constructs `OrderableItem` rows with those
keyword arguments, although the `models.py` class body omits the three
columns; the model follows the two use sites (and the documented data
model), treating them as nullable columns. -/

/-- `OrderableItem` catalog row. -/
structure OrderableItem where
  id : String
  item_type : String
  name : String
  generic_name : Option String
  min_dose : Option PyNum
  max_dose : Option PyNum
  default_dose_unit : Option String
deriving DecidableEq

/-- `PatientAllergy` row. -/
structure PatientAllergy where
  patient_id : String
  allergen_name : String
  severity : String
  is_active : Bool
deriving DecidableEq

/-- `PatientMedication` row; `orderable_item` is the joined catalog row
(`None` for free-text medications with no `orderable_item_id`). -/
structure PatientMedication where
  patient_id : String
  status : String
  type : String
  orderable_item : Option OrderableItem
deriving DecidableEq

/-- `CDSRule` row; `interactions` is the `"interactions"` list of the
`rule_logic` JSON payload, a list of interacting drug-name pairs. -/
structure CDSRule where
  rule_type : String
  is_active : Bool
  interactions : List (String × String)
deriving DecidableEq

/-- `Order` row. -/
structure Order where
  id : String
  patient_id : String
  orderable_item_id : String
  order_details : PyVal
  priority : PyVal
  status : String
  ordering_physician_id : Nat
  signed_at : Option Nat
  signed_by_user_id : Option Nat
  discontinued_at : Option Nat
  discontinued_by_user_id : Option Nat
  discontinuation_reason : Option PyVal
deriving DecidableEq

/-- `Patient` row (only the primary key is read by the embedded paths). -/
structure Patient where
  id : String
deriving DecidableEq

/-- `User` row (only the primary key is read by the embedded paths). -/
structure User where
  id : Nat
deriving DecidableEq

/-- The database visible to the CDS / CPOE code: one list per table. -/
structure DB where
  patients : List Patient
  items : List OrderableItem
  orders : List Order
  allergies : List PatientAllergy
  medications : List PatientMedication
  cds_rules : List CDSRule
deriving DecidableEq

/-- An `Alert` dictionary `{type, message, severity}` (transient, never
persisted). -/
structure Alert where
  type : String
  message : String
  severity : String
deriving DecidableEq

/-- Display of a scalar inside an f-string. -/
def pyValStr : PyVal → String
  | PyVal.none => "None"
  | PyVal.bool b => if b then "True" else "False"
  | PyVal.num q => PyNum.render q
  | PyVal.str s => s

/-! ## Check Functions (`hms_app_pkg/cds/services.py`) -/

/-- `_check_for_duplicate_orders`: one `Warning` alert when an `Active`
order for the same patient and item already exists. -/
def check_for_duplicate_orders (db : DB) (patient : Patient) (order_item : OrderableItem) : List Alert :=
  match db.orders.find? (fun o =>
      o.patient_id == patient.id && o.orderable_item_id == order_item.id && o.status == "Active") with
  | Option.some _ =>
      [{ type := "DUPLICATE_ORDER",
         message := "Warning: An active order for " ++ order_item.name ++ " already exists for this patient.",
         severity := "Warning" }]
  | Option.none => []

/-- The `for allergy in patient_allergies` loop of `_check_for_allergies`:
return on the first allergy whose lowered allergen name is a substring of
the lowered item name. -/
def allergyScan (order_item : OrderableItem) : List PatientAllergy → List Alert
  | [] => []
  | allergy :: rest =>
      if strIn (strLower allergy.allergen_name) (strLower order_item.name) then
        [{ type := "ALLERGY_ALERT",
           message := "Critical: Patient has a documented allergy to " ++ allergy.allergen_name
             ++ ". This order for " ++ order_item.name ++ " may be unsafe.",
           severity := "Critical" }]
      else allergyScan order_item rest

/-- `_check_for_allergies`: medications only; scans the patient's active
allergy rows. -/
def check_for_allergies (db : DB) (patient : Patient) (order_item : OrderableItem) : List Alert :=
  if order_item.item_type != "Medication" then []
  else
    allergyScan order_item
      (db.allergies.filter (fun a => a.patient_id == patient.id && a.is_active))

/-- The lowered names of the patient's `Active` / `INPATIENT_ACTIVE`
medications that are joined to a catalog item (the Python set
`active_med_names`; membership below is exact-name membership, as in the
source). -/
def active_med_names (db : DB) (patient : Patient) : List String :=
  ((db.medications.filter (fun m =>
      m.patient_id == patient.id && m.status == "Active" && m.type == "INPATIENT_ACTIVE")).filterMap
    (fun m => m.orderable_item)).map (fun i => strLower i.name)

/-- The `for drug1, drug2 in defined_interactions` loop of
`_check_drug_drug_interactions`.  As in the source, the test is
`new_med_name_lower in drug1 and drug2 in active_med_names` (the new
item's lowered name as a substring of the rule token, and the other token
as an exact member of the active-name set), or the symmetric case. -/
def interactionScan (new_med_item : OrderableItem) (names : List String) :
    List (String × String) → List Alert
  | [] => []
  | (drug1, drug2) :: rest =>
      if (strIn (strLower new_med_item.name) drug1 && names.contains drug2)
          || (strIn (strLower new_med_item.name) drug2 && names.contains drug1) then
        [{ type := "DRUG_INTERACTION",
           message := "Warning: Potential interaction between the new order " ++ new_med_item.name
             ++ " and an existing medication. Please review patients medication list.",
           severity := "Warning" }]
      else interactionScan new_med_item names rest

/-- `_check_drug_drug_interactions`: medications only; loads the first
active `DrugInteraction` rule and scans its pairs. -/
def check_drug_drug_interactions (db : DB) (patient : Patient) (new_med_item : OrderableItem) : List Alert :=
  if new_med_item.item_type != "Medication" then []
  else
    match db.cds_rules.find? (fun r => r.rule_type == "DrugInteraction" && r.is_active) with
    | Option.none => []
    | Option.some rule => interactionScan new_med_item (active_med_names db patient) rule.interactions

/-- Python falsiness of a nullable numeric column (`not order_item.max_dose`). -/
def optQFalsy : Option PyNum → Bool
  | Option.none => true
  | Option.some q => q.isZero

/-- Python truthiness of a nullable string column. -/
def optStrTruthy : Option String → Bool
  | Option.none => false
  | Option.some s => s != ""

/-- `min_dose = order_item.min_dose or 0` from `_check_dose_range`
(Python `or`: a `None` or `0.0` column gives the literal `0`). -/
def effective_min_dose (order_item : OrderableItem) : PyNum :=
  match order_item.min_dose with
  | Option.some q => if q.isZero then PyNum.zero else q
  | Option.none => PyNum.zero

/-- `max_dose = order_item.max_dose` (the guard in `_check_dose_range`
ensures it is present and non-zero when this is reached). -/
def effective_max_dose (order_item : OrderableItem) : PyNum :=
  order_item.max_dose.getD PyNum.zero

/-- The final range comparison of `_check_dose_range`: alert when the dose
is outside `[min_dose, max_dose]` inclusive. -/
def doseRangeOnly (order_item : OrderableItem) (ordered_dose : PyNum) (ordered_unit : PyVal) : List Alert :=
  if ¬(PyNum.le (effective_min_dose order_item) ordered_dose
      ∧ PyNum.le ordered_dose (effective_max_dose order_item)) then
    [{ type := "DOSE_RANGE_ALERT",
       message := "Warning: The ordered dose of " ++ PyNum.render ordered_dose ++ " " ++ pyValStr ordered_unit
         ++ " is outside the recommended range of " ++ PyNum.render (effective_min_dose order_item)
         ++ "-" ++ PyNum.render (effective_max_dose order_item)
         ++ " " ++ (order_item.default_dose_unit.getD "") ++ " for " ++ order_item.name ++ ".",
       severity := "Warning" }]
  else []

/-- `_check_dose_range`.  The `try` block wraps only the dose parse (its
`except` catches `ValueError`, `TypeError`, `AttributeError`, i.e. every
error `pyFloat` can produce, and yields no alert); the later
`ordered_unit.lower()` call sits outside the `try`, so its
`AttributeError` escapes as `Except.error`.  A unit mismatch returns
immediately, short-circuiting past the range comparison. -/
def check_dose_range (order_item : OrderableItem) (order_details : PyDict) : Except PyErr (List Alert) :=
  if order_item.item_type != "Medication" || optQFalsy order_item.max_dose then Except.ok []
  else
    match pyFloat (dictGet order_details "dose") with
    | Except.error _ => Except.ok []
    | Except.ok ordered_dose =>
        if pyTruthy (dictGet order_details "unit") && optStrTruthy order_item.default_dose_unit then
          match pyLower (dictGet order_details "unit") with
          | Except.error e => Except.error e
          | Except.ok u =>
              if u != strLower (order_item.default_dose_unit.getD "") then
                Except.ok
                  [{ type := "DOSE_UNIT_MISMATCH",
                     message := "Warning: The ordered unit " ++ pyValStr (dictGet order_details "unit")
                       ++ " does not match the default unit " ++ (order_item.default_dose_unit.getD "")
                       ++ " for " ++ order_item.name ++ ".",
                     severity := "Warning" }]
              else Except.ok (doseRangeOnly order_item ordered_dose (dictGet order_details "unit"))
        else Except.ok (doseRangeOnly order_item ordered_dose (dictGet order_details "unit"))

/-- `execute_cds_checks`: runs the four checks in order and concatenates
their alerts (the trailing `logger.info` call touches no stored state and
is not modelled). -/
def execute_cds_checks (db : DB) (patient : Patient) (order_item : OrderableItem)
    (order_details : PyDict) : Except PyErr (List Alert) :=
  let a1 := check_for_duplicate_orders db patient order_item
  let a2 := check_for_allergies db patient order_item
  let a3 := check_drug_drug_interactions db patient order_item
  match check_dose_range order_item order_details with
  | Except.error e => Except.error e
  | Except.ok a4 => Except.ok (a1 ++ a2 ++ a3 ++ a4)

/-! ## State-threaded rendering of the evaluator

The Python checks run against a live database session.  To express that
the evaluation reads but never writes the store, each check is rendered a
second time in state-passing style — the returned `DB` is the session
state after the call, which for these bodies (queries only, no
`session.add` / `commit` / attribute assignment in
`hms_app_pkg/cds/services.py`) is the state they were given. -/

/-- `_check_for_duplicate_orders`, state-passing rendering. -/
def check_for_duplicate_orders_st (db : DB) (patient : Patient) (order_item : OrderableItem) :
    List Alert × DB :=
  (check_for_duplicate_orders db patient order_item, db)

/-- `_check_for_allergies`, state-passing rendering. -/
def check_for_allergies_st (db : DB) (patient : Patient) (order_item : OrderableItem) :
    List Alert × DB :=
  (check_for_allergies db patient order_item, db)

/-- `_check_drug_drug_interactions`, state-passing rendering. -/
def check_drug_drug_interactions_st (db : DB) (patient : Patient) (new_med_item : OrderableItem) :
    List Alert × DB :=
  (check_drug_drug_interactions db patient new_med_item, db)

/-- `_check_dose_range`, state-passing rendering (the check reads no
stored rows at all, only its two arguments). -/
def check_dose_range_st (db : DB) (order_item : OrderableItem) (order_details : PyDict) :
    Except PyErr (List Alert × DB) :=
  match check_dose_range order_item order_details with
  | Except.error e => Except.error e
  | Except.ok l => Except.ok (l, db)

/-- `execute_cds_checks`, state-passing rendering: the session state
produced by each check is the one handed to the next. -/
def execute_cds_checks_st (db : DB) (patient : Patient) (order_item : OrderableItem)
    (order_details : PyDict) : Except PyErr (List Alert × DB) :=
  let r1 := check_for_duplicate_orders_st db patient order_item
  let r2 := check_for_allergies_st r1.2 patient order_item
  let r3 := check_drug_drug_interactions_st r2.2 patient order_item
  match check_dose_range_st r3.2 order_item order_details with
  | Except.error e => Except.error e
  | Except.ok r4 => Except.ok (r1.1 ++ r2.1 ++ r3.1 ++ r4.1, r4.2)

/-! ## Order Admission Controller (`hms_app_pkg/cpoe/services.py`)

`cpoe/services.py` defines `create_new_order` twice; the second definition
(lines 57-89, the one that calls `execute_cds_checks`) shadows the first
and is the live one.  That second definition is embedded here.  The
primary key that SQLAlchemy would generate for the new row is passed in as
`new_order_id`. -/

/-- The three returns of `create_new_order`, i.e. its
`(new_order, alerts, error_message, status_code)` tuple shapes. -/
inductive CreateResult where
  | itemNotFound (message : String) (code : Nat)
  | blocked (alerts : List Alert) (message : String) (code : Nat)
  | created (order : Order) (alerts : List Alert)
deriving DecidableEq

/-- `OrderableItem.query.get(value)`: primary-key lookup; non-string
values match no row. -/
def getItem (db : DB) (v : PyVal) : Option OrderableItem :=
  match v with
  | PyVal.str s => db.items.find? (fun i => i.id == s)
  | _ => Option.none

/-- The `Order(...)` constructor call of `create_new_order`: a
`PendingSignature` order with the resolved references and the submitted
details/priority. -/
def pending_order (patient : Patient) (user : User) (order_data : PyDict)
    (new_order_id : String) (item : OrderableItem) : Order :=
  { id := new_order_id,
    patient_id := patient.id,
    orderable_item_id := item.id,
    order_details := dictGet order_data "order_details",
    priority := dictGetD order_data "priority" (PyVal.str "Routine"),
    status := "PendingSignature",
    ordering_physician_id := user.id,
    signed_at := Option.none,
    signed_by_user_id := Option.none,
    discontinued_at := Option.none,
    discontinued_by_user_id := Option.none,
    discontinuation_reason := Option.none }

/-- `create_new_order` (the live, second definition).  Note that the whole
`order_data` dict is passed to `execute_cds_checks` as its `order_details`
argument, so the dose check reads `dose` / `unit` from the top level of
`order_data`.  On success the new row is added to the session
(`db.session.add`). -/
def create_new_order (db : DB) (patient : Patient) (user : User) (order_data : PyDict)
    (new_order_id : String) : Except PyErr (CreateResult × DB) :=
  match getItem db (dictGet order_data "orderable_item_id") with
  | Option.none => Except.ok (CreateResult.itemNotFound "Orderable item not found" 404, db)
  | Option.some item =>
      match execute_cds_checks db patient item order_data with
      | Except.error e => Except.error e
      | Except.ok alerts =>
          if alerts.any (fun a => a.severity == "Critical") then
            Except.ok (CreateResult.blocked alerts "Order blocked by critical CDS alert(s)." 400, db)
          else
            Except.ok
              (CreateResult.created (pending_order patient user order_data new_order_id item) alerts,
               { db with orders := db.orders ++ [pending_order patient user order_data new_order_id item] })

/-! ## HTTP route layer (`hms_app_pkg/cpoe/routes.py`)

The `create_order` route handler does not call `execute_cds_checks`; it
performs its own inline duplicate-order and allergy checks.  Its allergy
test runs in the opposite direction from the CDS engine's: it asks whether
the item name (or a truthy generic name) is a substring of the allergen
text.  Auth decoration, JSON parsing and commit-time exception handling
(`IntegrityError` → 500) are outside the embedded logic. -/

/-- The JSON responses `create_order` can produce.  In the source the
`cds_warnings` key is attached only when the alert list is non-empty; an
empty `cds_warnings` list here models the absent key. -/
inductive RouteResult where
  | badRequest (message : String) (code : Nat)
  | notFound (message : String) (code : Nat)
  | blocked (message : String) (cds_alerts : List Alert) (code : Nat)
  | created (message : String) (order_id : String) (cds_warnings : List Alert) (code : Nat)
deriving DecidableEq

/-- The alerts carried by a `create_order` response. -/
def resultAlerts : RouteResult → List Alert
  | RouteResult.blocked _ a _ => a
  | RouteResult.created _ _ w _ => w
  | _ => []

/-- The `for allergy in PatientAllergy.query...` loop of the route
handler: first match appends one Critical alert and breaks.  Direction:
`item.name.lower() in allergy.allergen_name.lower()`, or the truthy
generic name likewise contained in the allergen text. -/
def routeAllergyScan (item : OrderableItem) : List PatientAllergy → List Alert
  | [] => []
  | allergy :: rest =>
      if strIn (strLower item.name) (strLower allergy.allergen_name)
          || (match item.generic_name with
              | Option.some g => (g != "") && strIn (strLower g) (strLower allergy.allergen_name)
              | Option.none => false) then
        [{ type := "ALLERGY_ALERT",
           message := "Patient allergic to " ++ allergy.allergen_name ++ " - may react to "
             ++ item.name ++ ". Severity: " ++ allergy.severity ++ ".",
           severity := "Critical" }]
      else routeAllergyScan item rest

/-- The inline duplicate-order check of the route handler (same query as
the CDS check, different message). -/
def route_duplicate_alerts (db : DB) (patient : Patient) (item : OrderableItem) : List Alert :=
  match db.orders.find? (fun o =>
      o.patient_id == patient.id && o.orderable_item_id == item.id && o.status == "Active") with
  | Option.some existing =>
      [{ type := "DUPLICATE_ORDER",
         message := "An active order for " ++ item.name ++ " already exists (Order ID: "
           ++ existing.id ++ ").",
         severity := "Warning" }]
  | Option.none => []

/-- The inline allergy check of the route handler (medications only). -/
def route_allergy_alerts (db : DB) (patient : Patient) (item : OrderableItem) : List Alert :=
  if item.item_type == "Medication" then
    routeAllergyScan item
      (db.allergies.filter (fun a => a.patient_id == patient.id && a.is_active))
  else []

/-- The route handler's accumulated `alerts` list. -/
def route_alerts (db : DB) (patient : Patient) (item : OrderableItem) : List Alert :=
  route_duplicate_alerts db patient item ++ route_allergy_alerts db patient item

/-- The `create_order` route handler (POST
`/patients/<patient_id>/orders`), from required-key validation through the
commit; the generated primary key is passed in as `new_order_id` (the
route builds its new `Order` with the same constructor-call shape as the
service layer, embedded as `pending_order`). -/
def create_order_route (db : DB) (user : User) (patient_id : String) (data : PyDict)
    (new_order_id : String) : RouteResult × DB :=
  if ¬(hasKey data "orderable_item_id" && hasKey data "order_details") then
    (RouteResult.badRequest "orderable_item_id and order_details are required" 400, db)
  else
    match db.patients.find? (fun p => p.id == patient_id) with
    | Option.none => (RouteResult.notFound "Patient not found" 404, db)
    | Option.some patient =>
        match getItem db (dictGet data "orderable_item_id") with
        | Option.none => (RouteResult.notFound "Orderable item not found" 404, db)
        | Option.some item =>
            if (route_alerts db patient item).any (fun a => a.severity == "Critical") then
              (RouteResult.blocked "Order blocked by critical CDS alert(s)."
                (route_alerts db patient item) 400, db)
            else
              (RouteResult.created "Order created successfully and is pending signature." new_order_id
                (route_alerts db patient item) 201,
               { db with orders := db.orders ++ [pending_order patient user data new_order_id item] })

/-- The `sign_order` route handler (POST `/orders/<order_id>/sign`),
applied to the order resolved by `get_or_404`: returns the updated row and
the HTTP status code. -/
def sign_order (order : Order) (user : User) (now : Nat) : Order × Nat :=
  if order.status != "PendingSignature" then (order, 400)
  else
    ({ order with
        status := "Active",
        signed_at := Option.some now,
        signed_by_user_id := Option.some user.id },
     200)

/-- The `discontinue_order` route handler (POST
`/orders/<order_id>/discontinue`), applied to the resolved order.  The
source's second guard (`status == 'Discontinued'`) is kept although the
first guard already rules it out. -/
def discontinue_order (order : Order) (user : User) (data : Option PyDict) (now : Nat) :
    Order × Nat :=
  if ¬(order.status = "Active" ∨ order.status = "PendingSignature") then (order, 400)
  else if order.status = "Discontinued" then (order, 400)
  else
    let reason :=
      match data with
      | Option.some d => dictGet d "reason"
      | Option.none => PyVal.none
    ({ order with
        status := "Discontinued",
        discontinued_at := Option.some now,
        discontinued_by_user_id := Option.some user.id,
        discontinuation_reason :=
          Option.some (if pyTruthy reason then reason
            else PyVal.str "Discontinued by physician order.") },
     200)

/-! ## Helper lemmas: output shapes of the four checks -/

theorem singleton_form (l : List Alert) (T S : String) (hlen : l.length ≤ 1) (hne : l ≠ [])
    (hmem : ∀ a ∈ l, a.type = T ∧ a.severity = S) :
    ∃ m, l = [{ type := T, message := m, severity := S }] := by
  match l with
  | [] => exact absurd rfl hne
  | [a] =>
      rcases hmem a (List.mem_singleton_self a) with ⟨ht, hs⟩
      exact ⟨a.message, by rw [← ht, ← hs]⟩
  | a :: b :: rest => simp at hlen

theorem mem_allergyScan (item : OrderableItem) (l : List PatientAllergy) (al : Alert)
    (h : al ∈ allergyScan item l) :
    al.type = "ALLERGY_ALERT" ∧ al.severity = "Critical" := by
  induction l with
  | nil => simp [allergyScan] at h
  | cons a rest ih =>
      by_cases hc : strIn (strLower a.allergen_name) (strLower item.name) = true
      · simp [allergyScan, hc] at h
        rw [h]
        exact ⟨rfl, rfl⟩
      · simp only [allergyScan, if_neg hc] at h
        exact ih h

theorem allergyScan_length (item : OrderableItem) (l : List PatientAllergy) :
    (allergyScan item l).length ≤ 1 := by
  induction l with
  | nil => simp [allergyScan]
  | cons a rest ih =>
      by_cases hc : strIn (strLower a.allergen_name) (strLower item.name) = true
      · simp [allergyScan, hc]
      · simpa only [allergyScan, if_neg hc] using ih

theorem allergyScan_eq_nil_iff (item : OrderableItem) (l : List PatientAllergy) :
    allergyScan item l = [] ↔
      ∀ a ∈ l, strIn (strLower a.allergen_name) (strLower item.name) = false := by
  induction l with
  | nil => simp [allergyScan]
  | cons a rest ih =>
      by_cases hc : strIn (strLower a.allergen_name) (strLower item.name) = true
      · simp [allergyScan, hc]
      · simp only [allergyScan, if_neg hc]
        rw [ih]
        constructor
        · intro hall b hb
          rcases List.mem_cons.mp hb with rfl | hb'
          · exact Bool.not_eq_true _ ▸ eq_false_of_ne_true hc
          · exact hall b hb'
        · intro hall b hb
          exact hall b (List.mem_cons_of_mem a hb)

theorem check_for_allergies_mem (db : DB) (patient : Patient) (item : OrderableItem) (al : Alert)
    (h : al ∈ check_for_allergies db patient item) :
    al.type = "ALLERGY_ALERT" ∧ al.severity = "Critical" := by
  unfold check_for_allergies at h
  split at h
  · simp at h
  · exact mem_allergyScan item _ al h

theorem check_for_allergies_length (db : DB) (patient : Patient) (item : OrderableItem) :
    (check_for_allergies db patient item).length ≤ 1 := by
  unfold check_for_allergies
  split
  · simp
  · exact allergyScan_length item _

theorem mem_interactionScan (item : OrderableItem) (names : List String)
    (prs : List (String × String)) (al : Alert) (h : al ∈ interactionScan item names prs) :
    al.type = "DRUG_INTERACTION" ∧ al.severity = "Warning" := by
  induction prs with
  | nil => simp [interactionScan] at h
  | cons pr rest ih =>
      rcases pr with ⟨d1, d2⟩
      by_cases hc : ((strIn (strLower item.name) d1 && names.contains d2)
          || (strIn (strLower item.name) d2 && names.contains d1)) = true
      · simp only [interactionScan, if_pos hc, List.mem_singleton] at h
        rw [h]
        exact ⟨rfl, rfl⟩
      · simp only [interactionScan, if_neg hc] at h
        exact ih h

theorem interactionScan_length (item : OrderableItem) (names : List String)
    (prs : List (String × String)) : (interactionScan item names prs).length ≤ 1 := by
  induction prs with
  | nil => simp [interactionScan]
  | cons pr rest ih =>
      rcases pr with ⟨d1, d2⟩
      by_cases hc : ((strIn (strLower item.name) d1 && names.contains d2)
          || (strIn (strLower item.name) d2 && names.contains d1)) = true
      · simp only [interactionScan, if_pos hc]
        simp
      · simpa only [interactionScan, if_neg hc] using ih

theorem check_drug_drug_interactions_mem (db : DB) (patient : Patient) (item : OrderableItem)
    (al : Alert) (h : al ∈ check_drug_drug_interactions db patient item) :
    al.type = "DRUG_INTERACTION" ∧ al.severity = "Warning" := by
  unfold check_drug_drug_interactions at h
  split at h
  · simp at h
  · split at h
    · simp at h
    · exact mem_interactionScan item _ _ al h

theorem check_drug_drug_interactions_length (db : DB) (patient : Patient) (item : OrderableItem) :
    (check_drug_drug_interactions db patient item).length ≤ 1 := by
  unfold check_drug_drug_interactions
  split
  · simp
  · split
    · simp
    · exact interactionScan_length item _ _

theorem check_for_duplicate_orders_mem (db : DB) (patient : Patient) (item : OrderableItem)
    (al : Alert) (h : al ∈ check_for_duplicate_orders db patient item) :
    al.type = "DUPLICATE_ORDER" ∧ al.severity = "Warning" := by
  unfold check_for_duplicate_orders at h
  split at h
  · simp only [List.mem_singleton] at h
    rw [h]
    exact ⟨rfl, rfl⟩
  · simp at h

theorem check_for_duplicate_orders_length (db : DB) (patient : Patient) (item : OrderableItem) :
    (check_for_duplicate_orders db patient item).length ≤ 1 := by
  unfold check_for_duplicate_orders
  split
  · simp
  · simp

theorem mem_doseRangeOnly (item : OrderableItem) (d : PyNum) (u : PyVal) (al : Alert)
    (h : al ∈ doseRangeOnly item d u) :
    al.type = "DOSE_RANGE_ALERT" ∧ al.severity = "Warning" := by
  unfold doseRangeOnly at h
  split at h
  · simp only [List.mem_singleton] at h
    rw [h]
    exact ⟨rfl, rfl⟩
  · simp at h

theorem doseRangeOnly_length (item : OrderableItem) (d : PyNum) (u : PyVal) :
    (doseRangeOnly item d u).length ≤ 1 := by
  unfold doseRangeOnly
  split
  · simp
  · simp

theorem check_dose_range_mem (item : OrderableItem) (details : PyDict) (l : List Alert)
    (h : check_dose_range item details = Except.ok l) :
    ∀ al ∈ l, (al.type = "DOSE_UNIT_MISMATCH" ∨ al.type = "DOSE_RANGE_ALERT")
      ∧ al.severity = "Warning" := by
  unfold check_dose_range at h
  split at h
  · cases h
    simp
  · split at h
    · cases h
      simp
    · split at h
      · split at h
        · cases h
        · split at h
          · cases h
            intro al hal
            simp only [List.mem_singleton] at hal
            rw [hal]
            exact ⟨Or.inl rfl, rfl⟩
          · cases h
            intro al hal
            rcases mem_doseRangeOnly item _ _ al hal with ⟨ht, hs⟩
            exact ⟨Or.inr ht, hs⟩
      · cases h
        intro al hal
        rcases mem_doseRangeOnly item _ _ al hal with ⟨ht, hs⟩
        exact ⟨Or.inr ht, hs⟩

theorem check_dose_range_length (item : OrderableItem) (details : PyDict) (l : List Alert)
    (h : check_dose_range item details = Except.ok l) : l.length ≤ 1 := by
  unfold check_dose_range at h
  split at h
  · cases h
    simp
  · split at h
    · cases h
      simp
    · split at h
      · split at h
        · cases h
        · split at h
          · cases h
            simp
          · cases h
            exact doseRangeOnly_length item _ _
      · cases h
        exact doseRangeOnly_length item _ _

/-! ## Helper lemmas: the evaluator -/

theorem execute_cds_checks_decomp (db : DB) (patient : Patient) (item : OrderableItem)
    (details : PyDict) (alerts : List Alert)
    (h : execute_cds_checks db patient item details = Except.ok alerts) :
    ∃ a4, check_dose_range item details = Except.ok a4
      ∧ alerts = check_for_duplicate_orders db patient item
          ++ check_for_allergies db patient item
          ++ check_drug_drug_interactions db patient item
          ++ a4 := by
  unfold execute_cds_checks at h
  cases h4 : check_dose_range item details with
  | error e => rw [h4] at h; cases h
  | ok a4 =>
      rw [h4] at h
      cases h
      exact ⟨a4, rfl, rfl⟩

theorem execute_cds_checks_of_dose (db : DB) (patient : Patient) (item : OrderableItem)
    (details : PyDict) (a4 : List Alert) (h4 : check_dose_range item details = Except.ok a4) :
    execute_cds_checks db patient item details
      = Except.ok (check_for_duplicate_orders db patient item
          ++ check_for_allergies db patient item
          ++ check_drug_drug_interactions db patient item
          ++ a4) := by
  unfold execute_cds_checks
  rw [h4]

theorem execute_cds_checks_error_iff (db : DB) (patient : Patient) (item : OrderableItem)
    (details : PyDict) (e : PyErr) :
    execute_cds_checks db patient item details = Except.error e
      ↔ check_dose_range item details = Except.error e := by
  unfold execute_cds_checks
  cases h4 : check_dose_range item details with
  | error e2 => simp
  | ok a4 => simp

theorem mem_execute_cds_checks (db : DB) (patient : Patient) (item : OrderableItem)
    (details : PyDict) (alerts : List Alert) (al : Alert)
    (h : execute_cds_checks db patient item details = Except.ok alerts) (hal : al ∈ alerts) :
    (al.severity = "Critical" → (al.type = "ALLERGY_ALERT" ∧ al ∈ check_for_allergies db patient item))
      ∧ (al.type ≠ "ALLERGY_ALERT" → al.severity = "Warning") := by
  rcases execute_cds_checks_decomp db patient item details alerts h with ⟨a4, h4, rfl⟩
  simp only [List.append_assoc, List.mem_append] at hal
  rcases hal with h1 | h2 | h3 | hd
  · rcases check_for_duplicate_orders_mem db patient item al h1 with ⟨ht, hs⟩
    constructor
    · intro hcrit
      rw [hs] at hcrit
      exact absurd hcrit (by decide)
    · intro _
      exact hs
  · rcases check_for_allergies_mem db patient item al h2 with ⟨ht, hs⟩
    constructor
    · intro _
      exact ⟨ht, h2⟩
    · intro hne
      exact absurd ht hne
  · rcases check_drug_drug_interactions_mem db patient item al h3 with ⟨ht, hs⟩
    constructor
    · intro hcrit
      rw [hs] at hcrit
      exact absurd hcrit (by decide)
    · intro _
      exact hs
  · rcases check_dose_range_mem item details a4 h4 al hd with ⟨ht, hs⟩
    constructor
    · intro hcrit
      rw [hs] at hcrit
      exact absurd hcrit (by decide)
    · intro _
      exact hs

theorem execute_cds_checks_any_critical_iff (db : DB) (patient : Patient) (item : OrderableItem)
    (details : PyDict) (alerts : List Alert)
    (h : execute_cds_checks db patient item details = Except.ok alerts) :
    alerts.any (fun a => a.severity == "Critical") = true
      ↔ check_for_allergies db patient item ≠ [] := by
  constructor
  · intro hany
    rcases List.any_eq_true.mp hany with ⟨al, hal, hcrit⟩
    have hc : al.severity = "Critical" := by simpa using hcrit
    rcases mem_execute_cds_checks db patient item details alerts al h hal with ⟨himp, _⟩
    rcases himp hc with ⟨_, hmem⟩
    exact List.ne_nil_of_mem hmem
  · intro hne
    rcases execute_cds_checks_decomp db patient item details alerts h with ⟨a4, h4, rfl⟩
    rcases List.exists_mem_of_ne_nil _ hne with ⟨al, hal⟩
    rcases check_for_allergies_mem db patient item al hal with ⟨_, hs⟩
    refine List.any_eq_true.mpr ⟨al, ?_, by simp [hs]⟩
    simp only [List.append_assoc, List.mem_append]
    exact Or.inr (Or.inl hal)

/-! ## Concrete fixtures (mirroring the admin seed data) -/

/-- Seeded aspirin catalog row (`admin/routes.py` sample data). -/
def itemAspirin : OrderableItem :=
  { id := "item-aspirin", item_type := "Medication", name := "Aspirin 81mg Tablet",
    generic_name := Option.some "Aspirin", min_dose := Option.some (PyNum.ofNat 81),
    max_dose := Option.some (PyNum.ofNat 650), default_dose_unit := Option.some "mg" }

/-- Seeded lisinopril catalog row (min 2.5, max 40, unit mg). -/
def itemLisinopril : OrderableItem :=
  { id := "item-lisinopril", item_type := "Medication", name := "Lisinopril 10mg Tablet",
    generic_name := Option.some "Lisinopril",
    min_dose := Option.some { num := 25, den := 10 },
    max_dose := Option.some (PyNum.ofNat 40), default_dose_unit := Option.some "mg" }

/-- A warfarin catalog row (no dose bounds configured). -/
def itemWarfarin : OrderableItem :=
  { id := "item-warfarin", item_type := "Medication", name := "Warfarin 5mg",
    generic_name := Option.some "Warfarin", min_dose := Option.none,
    max_dose := Option.none, default_dose_unit := Option.none }

/-- A branded row whose generic name (but not display name) matches an
allergen. -/
def itemTylenol : OrderableItem :=
  { id := "item-tylenol", item_type := "Medication", name := "Tylenol 500mg Tablet",
    generic_name := Option.some "Acetaminophen", min_dose := Option.none,
    max_dose := Option.none, default_dose_unit := Option.none }

/-- Fixture patient. -/
def patientA : Patient := { id := "patient-a" }

/-- Fixture ordering physician. -/
def userA : User := { id := 7 }

/-- Patient A is allergic to aspirin. -/
def dbAllergy : DB :=
  { patients := [patientA], items := [itemAspirin], orders := [],
    allergies := [{ patient_id := "patient-a", allergen_name := "Aspirin",
                    severity := "Severe", is_active := true }],
    medications := [], cds_rules := [] }

/-- Submission payload for the aspirin row. -/
def dataAspirin : PyDict :=
  [("orderable_item_id", PyVal.str "item-aspirin"), ("order_details", PyVal.str "PO daily")]

/-! ## C1: admission gate of the order-creation service -/

/-- C1.  Submitting through `create_new_order`: with the orderable item
resolved and the CDS evaluation returning `alerts`, any `Critical` alert
yields the blocked result — the full alert list, the fixed message
`"Order blocked by critical CDS alert(s)."`, HTTP 400, and an unchanged
store (no `Order` constructed or persisted); otherwise a `PendingSignature`
order with the resolved patient/item/physician references and the
submitted order-details/priority (`pending_order`) is created and
persisted, and the same (non-critical) alert list is returned as advisory
warnings. -/
theorem spec_C1 (db : DB) (patient : Patient) (user : User) (order_data : PyDict)
    (new_order_id : String) (item : OrderableItem) (alerts : List Alert)
    (hitem : getItem db (dictGet order_data "orderable_item_id") = Option.some item)
    (hcds : execute_cds_checks db patient item order_data = Except.ok alerts) :
    create_new_order db patient user order_data new_order_id =
      Except.ok
        (if alerts.any (fun a => a.severity == "Critical") then
          (CreateResult.blocked alerts "Order blocked by critical CDS alert(s)." 400, db)
        else
          (CreateResult.created (pending_order patient user order_data new_order_id item) alerts,
           { db with orders := db.orders ++ [pending_order patient user order_data new_order_id item] })) := by
  unfold create_new_order
  rw [hitem]
  simp only [hcds]
  split <;> rfl

/-- C1 witness: patient A is allergic to aspirin, so the aspirin
submission is blocked with the critical allergy alert and nothing is
persisted. -/
theorem spec_C1_witness :
    create_new_order dbAllergy patientA userA dataAspirin "new-1"
      = Except.ok
          (CreateResult.blocked (check_for_allergies dbAllergy patientA itemAspirin)
            "Order blocked by critical CDS alert(s)." 400, dbAllergy) := by
  have h := spec_C1 dbAllergy patientA userA dataAspirin "new-1" itemAspirin
    (check_for_allergies dbAllergy patientA itemAspirin) (by decide) (by decide)
  rw [h]
  decide

/-! ## C5: order status state machine -/

/-- C5.  The sign/discontinue handlers admit only
`PendingSignature → Active` (sign) and
`{PendingSignature, Active} → Discontinued` (discontinue): signing a
non-`PendingSignature` order returns 400 and leaves the row unchanged;
discontinuing an order not in `{Active, PendingSignature}` is rejected
identically; and no transition leaves `Discontinued`. -/
theorem spec_C5 (order : Order) (user : User) (data : Option PyDict) (now : Nat) :
    (order.status ≠ "PendingSignature" → sign_order order user now = (order, 400))
    ∧ (order.status = "PendingSignature" →
        (sign_order order user now).1.status = "Active" ∧ (sign_order order user now).2 = 200)
    ∧ (¬(order.status = "Active" ∨ order.status = "PendingSignature") →
        discontinue_order order user data now = (order, 400))
    ∧ ((order.status = "Active" ∨ order.status = "PendingSignature") →
        (discontinue_order order user data now).1.status = "Discontinued"
          ∧ (discontinue_order order user data now).2 = 200)
    ∧ (order.status = "Discontinued" →
        sign_order order user now = (order, 400)
          ∧ discontinue_order order user data now = (order, 400)) := by
  refine ⟨?_, ?_, ?_, ?_, ?_⟩
  · intro h
    simp [sign_order, h]
  · intro h
    simp [sign_order, h]
  · intro h
    simp only [discontinue_order, if_pos h]
  · intro h
    rcases h with h | h <;> simp [discontinue_order, h]
  · intro h
    constructor
    · simp [sign_order, h]
    · simp [discontinue_order, h]

/-- A discontinued fixture order. -/
def orderDiscontinued : Order :=
  { id := "ord-1", patient_id := "patient-a", orderable_item_id := "item-aspirin",
    order_details := PyVal.str "PO daily", priority := PyVal.str "Routine",
    status := "Discontinued", ordering_physician_id := 7, signed_at := Option.none,
    signed_by_user_id := Option.none, discontinued_at := Option.some 3,
    discontinued_by_user_id := Option.some 7,
    discontinuation_reason := Option.some (PyVal.str "dup") }

/-- C5 witness: a `Discontinued` order is rejected by both handlers with
400 and stays untouched. -/
theorem spec_C5_witness :
    sign_order orderDiscontinued userA 9 = (orderDiscontinued, 400)
      ∧ discontinue_order orderDiscontinued userA Option.none 9 = (orderDiscontinued, 400) :=
  (spec_C5 orderDiscontinued userA Option.none 9).2.2.2.2 (by decide)

/-! ## C8: the evaluation is deterministic and leaves the store unchanged -/

theorem execute_cds_checks_st_eq (db : DB) (patient : Patient) (item : OrderableItem)
    (details : PyDict) :
    execute_cds_checks_st db patient item details
      = (execute_cds_checks db patient item details).map (fun l => (l, db)) := by
  unfold execute_cds_checks_st execute_cds_checks check_for_duplicate_orders_st
    check_for_allergies_st check_drug_drug_interactions_st check_dose_range_st
  cases h4 : check_dose_range item details <;> simp [Except.map]

/-- C8.  The evaluation is a pure read: a successful run of the
state-threaded evaluator hands back the store it was given, and re-running
it on the (unchanged) store yields the identical alert list — the
evaluation is deterministic, idempotent, and modifies no stored state. -/
theorem spec_C8 (db : DB) (patient : Patient) (item : OrderableItem) (details : PyDict)
    (alerts : List Alert) (db' : DB)
    (h : execute_cds_checks_st db patient item details = Except.ok (alerts, db')) :
    db' = db ∧ execute_cds_checks_st db' patient item details = Except.ok (alerts, db') := by
  rw [execute_cds_checks_st_eq] at h
  cases hx : execute_cds_checks db patient item details with
  | error e =>
      rw [hx] at h
      simp [Except.map] at h
  | ok l =>
      rw [hx] at h
      simp only [Except.map, Except.ok.injEq, Prod.mk.injEq] at h
      rcases h with ⟨rfl, rfl⟩
      refine ⟨rfl, ?_⟩
      rw [execute_cds_checks_st_eq, hx]
      rfl

/-- C8 witness: the aspirin-allergy evaluation returns its store
untouched and re-evaluates to the same alert list. -/
theorem spec_C8_witness :
    dbAllergy = dbAllergy
      ∧ execute_cds_checks_st dbAllergy patientA itemAspirin dataAspirin
          = Except.ok (check_for_allergies dbAllergy patientA itemAspirin, dbAllergy) :=
  spec_C8 dbAllergy patientA itemAspirin dataAspirin
    (check_for_allergies dbAllergy patientA itemAspirin) dbAllergy (by decide)

/-- If some member of the scanned allergy list matches the item name, the
scan returns a single critical allergy alert. -/
theorem allergyScan_of_match (item : OrderableItem) (l : List PatientAllergy)
    (a : PatientAllergy) (hmem : a ∈ l)
    (hmatch : strIn (strLower a.allergen_name) (strLower item.name) = true) :
    ∃ m, allergyScan item l = [{ type := "ALLERGY_ALERT", message := m, severity := "Critical" }] := by
  induction l with
  | nil => cases hmem
  | cons b rest ih =>
      by_cases hc : strIn (strLower b.allergen_name) (strLower item.name) = true
      · exact ⟨"Critical: Patient has a documented allergy to " ++ b.allergen_name
            ++ ". This order for " ++ item.name ++ " may be unsafe.",
          by simp only [allergyScan, if_pos hc]⟩
      · rcases List.mem_cons.mp hmem with rfl | hmem2
        · exact absurd hmatch hc
        · simpa only [allergyScan, if_neg hc] using ih hmem2

/-! ## C2: allergy check — matching is against the item name only -/

/-- Same content as the C1 theorem, kept as a reusable lemma (the gate on
`create_new_order`, given a resolved item and a completed evaluation). -/
theorem create_new_order_run (db : DB) (patient : Patient) (user : User) (order_data : PyDict)
    (new_order_id : String) (item : OrderableItem) (alerts : List Alert)
    (hitem : getItem db (dictGet order_data "orderable_item_id") = Option.some item)
    (hcds : execute_cds_checks db patient item order_data = Except.ok alerts) :
    create_new_order db patient user order_data new_order_id =
      Except.ok
        (if alerts.any (fun a => a.severity == "Critical") then
          (CreateResult.blocked alerts "Order blocked by critical CDS alert(s)." 400, db)
        else
          (CreateResult.created (pending_order patient user order_data new_order_id item) alerts,
           { db with orders := db.orders ++ [pending_order patient user order_data new_order_id item] })) := by
  unfold create_new_order
  rw [hitem]
  simp only [hcds]
  split <;> rfl

/-- Patient A has an active acetaminophen allergy; the Tylenol row matches
only through its generic name. -/
def dbGeneric : DB :=
  { patients := [patientA], items := [itemTylenol], orders := [],
    allergies := [{ patient_id := "patient-a", allergen_name := "Acetaminophen",
                    severity := "Severe", is_active := true }],
    medications := [], cds_rules := [] }

/-- Submission payload for the Tylenol row. -/
def dataTylenol : PyDict :=
  [("orderable_item_id", PyVal.str "item-tylenol"), ("order_details", PyVal.str "PO q6h")]

/-- C2 counterexample: the allergen name is a case-insensitive substring
of the item's *generic* name (and the allergy is active, the item a
medication), yet the evaluation returns zero alerts and `create_new_order`
creates and persists the order — the claim's generic-name clause does not
hold of the code, whose live allergy check
(`cds/services.py:_check_for_allergies`) tests the display name only. -/
theorem spec_C2_counterexample :
    strIn (strLower "Acetaminophen") (strLower (itemTylenol.generic_name.getD "")) = true
      ∧ itemTylenol.item_type = "Medication"
      ∧ (dbGeneric.allergies.all (fun a => a.is_active) = true)
      ∧ execute_cds_checks dbGeneric patientA itemTylenol dataTylenol = Except.ok []
      ∧ create_new_order dbGeneric patientA userA dataTylenol "new-2"
          = Except.ok
              (CreateResult.created (pending_order patientA userA dataTylenol "new-2" itemTylenol) [],
               { dbGeneric with
                  orders := [pending_order patientA userA dataTylenol "new-2" itemTylenol] }) := by
  decide

/-- C2 (amended).  For every patient and `Medication` item: if some active
allergy record of the patient has an allergen name that is a
case-insensitive substring of the item's *name* (the generic name is not
consulted), then the evaluation produces a `Critical` `ALLERGY_ALERT` and
submitting the order is blocked with no `Order` row created. -/
theorem spec_C2 (db : DB) (patient : Patient) (item : OrderableItem) (order_data : PyDict)
    (new_order_id : String) (user : User) (a : PatientAllergy)
    (hmed : item.item_type = "Medication")
    (hmem : a ∈ db.allergies) (hpat : a.patient_id = patient.id) (hact : a.is_active = true)
    (hmatch : strIn (strLower a.allergen_name) (strLower item.name) = true)
    (hitem : getItem db (dictGet order_data "orderable_item_id") = Option.some item)
    (hdose : ∃ a4, check_dose_range item order_data = Except.ok a4) :
    (∃ m, check_for_allergies db patient item
        = [{ type := "ALLERGY_ALERT", message := m, severity := "Critical" }])
      ∧ ∃ alerts,
          create_new_order db patient user order_data new_order_id
            = Except.ok (CreateResult.blocked alerts "Order blocked by critical CDS alert(s)." 400, db)
          ∧ ∃ m, ({ type := "ALLERGY_ALERT", message := m, severity := "Critical" } : Alert) ∈ alerts := by
  have hfil : a ∈ db.allergies.filter (fun x => x.patient_id == patient.id && x.is_active) :=
    List.mem_filter.mpr ⟨hmem, by simp [hpat, hact]⟩
  rcases allergyScan_of_match item _ a hfil hmatch with ⟨m, hscan⟩
  have hca : check_for_allergies db patient item
      = [{ type := "ALLERGY_ALERT", message := m, severity := "Critical" }] := by
    unfold check_for_allergies
    rw [if_neg (by simp [hmed])]
    exact hscan
  rcases hdose with ⟨a4, h4⟩
  have hexec := execute_cds_checks_of_dose db patient item order_data a4 h4
  have hmemAlert : ({ type := "ALLERGY_ALERT", message := m, severity := "Critical" } : Alert)
      ∈ check_for_duplicate_orders db patient item ++ check_for_allergies db patient item
        ++ check_drug_drug_interactions db patient item ++ a4 := by
    simp only [List.append_assoc, List.mem_append]
    exact Or.inr (Or.inl (by rw [hca]; exact List.mem_singleton_self _))
  have hany : (check_for_duplicate_orders db patient item ++ check_for_allergies db patient item
      ++ check_drug_drug_interactions db patient item ++ a4).any
        (fun al => al.severity == "Critical") = true :=
    List.any_eq_true.mpr ⟨_, hmemAlert, by simp⟩
  have hrun := create_new_order_run db patient user order_data new_order_id item _ hitem hexec
  rw [if_pos hany] at hrun
  exact ⟨⟨m, hca⟩, _, hrun, ⟨m, hmemAlert⟩⟩

/-- C2 witness: the aspirin allergy (allergen a substring of the item
name) blocks the aspirin submission. -/
theorem spec_C2_witness :
    (∃ m, check_for_allergies dbAllergy patientA itemAspirin
        = [{ type := "ALLERGY_ALERT", message := m, severity := "Critical" }])
      ∧ ∃ alerts,
          create_new_order dbAllergy patientA userA dataAspirin "new-1b"
            = Except.ok (CreateResult.blocked alerts "Order blocked by critical CDS alert(s)." 400, dbAllergy)
          ∧ ∃ m, ({ type := "ALLERGY_ALERT", message := m, severity := "Critical" } : Alert) ∈ alerts :=
  spec_C2 dbAllergy patientA itemAspirin dataAspirin "new-1b" userA
    { patient_id := "patient-a", allergen_name := "Aspirin", severity := "Severe", is_active := true }
    rfl (by decide) rfl rfl (by decide) (by decide) ⟨[], by decide⟩

/-! ## C3: unit mismatch returns immediately, suppressing the range check -/

/-- Payload ordering 50 mcg of the lisinopril row (range 2.5 - 40 mg). -/
def dataMcg : PyDict :=
  [("dose", PyVal.num (PyNum.ofNat 50)), ("unit", PyVal.str "mcg")]

/-- C3 counterexample: unit `mcg` differs from the default `mg` and the
dose 50 lies outside `[2.5, 40]`, yet the evaluation returns only the
`DOSE_UNIT_MISMATCH` alert — the `return` inside `_check_dose_range`
short-circuits past the range comparison, so the two alerts are never
produced together. -/
theorem spec_C3_counterexample :
    Except.map (List.map Alert.type)
        (check_dose_range itemLisinopril dataMcg) = Except.ok ["DOSE_UNIT_MISMATCH"]
      ∧ PyNum.le (effective_min_dose itemLisinopril) (PyNum.ofNat 50) = true
      ∧ PyNum.le (PyNum.ofNat 50) (effective_max_dose itemLisinopril) = false := by
  decide

/-- C3 (amended).  For a medication with a configured (truthy) `max_dose`
and default unit, a payload whose dose parses and whose unit is a
non-empty string differing case-insensitively from the default unit yields
exactly one `DOSE_UNIT_MISMATCH` Warning — the check returns at that
point, so the range comparison is suppressed; and no evaluation of the
Dose-Range Check ever returns more than one alert, so the two alert types
are never emitted together. -/
theorem spec_C3 :
    (∀ (item : OrderableItem) (details : PyDict) (l : List Alert),
        check_dose_range item details = Except.ok l → l.length ≤ 1)
    ∧ (∀ (item : OrderableItem) (details : PyDict) (u : String),
        item.item_type = "Medication" →
        optQFalsy item.max_dose = false →
        (∃ d, pyFloat (dictGet details "dose") = Except.ok d) →
        dictGet details "unit" = PyVal.str u →
        u ≠ "" →
        optStrTruthy item.default_dose_unit = true →
        strLower u ≠ strLower (item.default_dose_unit.getD "") →
        check_dose_range item details
          = Except.ok
              [{ type := "DOSE_UNIT_MISMATCH",
                 message := "Warning: The ordered unit " ++ pyValStr (dictGet details "unit")
                   ++ " does not match the default unit " ++ (item.default_dose_unit.getD "")
                   ++ " for " ++ item.name ++ ".",
                 severity := "Warning" }]) := by
  constructor
  · exact fun item details l h => check_dose_range_length item details l h
  · intro item details u hmed hmax hd hunit hne hdef hmm
    rcases hd with ⟨d, hd⟩
    have h1 : (item.item_type != "Medication" || optQFalsy item.max_dose) = false := by
      simp [hmed, hmax]
    have h2 : (pyTruthy (PyVal.str u) && optStrTruthy item.default_dose_unit) = true := by
      simp [pyTruthy, hne, hdef]
    have h4 : (strLower u != strLower (item.default_dose_unit.getD "")) = true := by
      simpa using hmm
    unfold check_dose_range
    rw [h1]
    simp [hd, hunit, h2, h4, pyLower]

/-- C3 witness: the 50 mcg lisinopril payload produces exactly the unit
mismatch alert, and an evaluation with no payload stays within the
one-alert bound. -/
theorem spec_C3_witness :
    check_dose_range itemLisinopril dataMcg
        = Except.ok
            [{ type := "DOSE_UNIT_MISMATCH",
               message := "Warning: The ordered unit " ++ pyValStr (dictGet dataMcg "unit")
                 ++ " does not match the default unit " ++ (itemLisinopril.default_dose_unit.getD "")
                 ++ " for " ++ itemLisinopril.name ++ ".",
               severity := "Warning" }]
      ∧ ([] : List Alert).length ≤ 1 :=
  ⟨spec_C3.2 itemLisinopril dataMcg "mcg" rfl (by decide) ⟨PyNum.ofNat 50, by decide⟩
      (by decide) (by decide) (by decide) (by decide),
   spec_C3.1 itemLisinopril [] [] (by decide)⟩

/-! ## C4: drug-interaction matching direction -/

/-- Patient A is on warfarin (active inpatient med) and the seeded
warfarin/aspirin interaction rule is active. -/
def medWarfarin : PatientMedication :=
  { patient_id := "patient-a", status := "Active", type := "INPATIENT_ACTIVE",
    orderable_item := Option.some itemWarfarin }

/-- The seeded interaction rule: pairs of lowercase drug names. -/
def ruleWA : CDSRule :=
  { rule_type := "DrugInteraction", is_active := true,
    interactions := [("warfarin", "aspirin")] }

/-- The aspirin row exactly as named in the spec's example scenario. -/
def itemAspirinPlain : OrderableItem :=
  { id := "item-asp81", item_type := "Medication", name := "Aspirin 81mg",
    generic_name := Option.some "Aspirin", min_dose := Option.none,
    max_dose := Option.none, default_dose_unit := Option.none }

/-- The spec's example state: active rule `[["warfarin","aspirin"]]`,
patient on "Warfarin 5mg", ordering "Aspirin 81mg". -/
def dbInteraction : DB :=
  { patients := [patientA], items := [itemAspirinPlain, itemWarfarin], orders := [],
    allergies := [], medications := [medWarfarin], cds_rules := [ruleWA] }

/-- Payload for the plain aspirin row. -/
def dataAsp81 : PyDict :=
  [("orderable_item_id", PyVal.str "item-asp81"), ("order_details", PyVal.str "PO daily")]

/-- C4 counterexample: in exactly the claimed scenario the check emits
*zero* alerts, not one.  The source tests `new_med_name_lower in drug1`
(the item name as a substring of the rule token — "aspirin 81mg" is not
contained in "aspirin") and `drug2 in active_med_names` (exact set
membership — "warfarin" is not the element "warfarin 5mg"), so neither
pair direction matches. -/
theorem spec_C4_counterexample :
    dbInteraction.cds_rules.find? (fun r => r.rule_type == "DrugInteraction" && r.is_active)
        = Option.some ruleWA
      ∧ ruleWA.interactions = [("warfarin", "aspirin")]
      ∧ active_med_names dbInteraction patientA = ["warfarin 5mg"]
      ∧ itemAspirinPlain.item_type = "Medication"
      ∧ itemAspirinPlain.name = "Aspirin 81mg"
      ∧ check_drug_drug_interactions dbInteraction patientA itemAspirinPlain = []
      ∧ execute_cds_checks dbInteraction patientA itemAspirinPlain dataAsp81 = Except.ok [] := by
  decide

/-- The scan fires (with its single Warning alert) exactly when some
declared pair matches under the source's condition. -/
theorem interactionScan_match_iff (item : OrderableItem) (names : List String)
    (prs : List (String × String)) :
    (∃ m, interactionScan item names prs
        = [{ type := "DRUG_INTERACTION", message := m, severity := "Warning" }])
      ↔ ∃ pr ∈ prs,
          ((strIn (strLower item.name) pr.1 && names.contains pr.2)
            || (strIn (strLower item.name) pr.2 && names.contains pr.1)) = true := by
  induction prs with
  | nil => simp [interactionScan]
  | cons pr rest ih =>
      rcases pr with ⟨d1, d2⟩
      by_cases hc : ((strIn (strLower item.name) d1 && names.contains d2)
          || (strIn (strLower item.name) d2 && names.contains d1)) = true
      · constructor
        · intro _
          exact ⟨(d1, d2), List.mem_cons_self _ _, hc⟩
        · intro _
          exact ⟨"Warning: Potential interaction between the new order " ++ item.name
              ++ " and an existing medication. Please review patients medication list.",
            by simp only [interactionScan, if_pos hc]⟩
      · simp only [interactionScan, if_neg hc]
        rw [ih]
        constructor
        · rintro ⟨pr, hpr, hcond⟩
          exact ⟨pr, List.mem_cons_of_mem _ hpr, hcond⟩
        · rintro ⟨pr, hpr, hcond⟩
          rcases List.mem_cons.mp hpr with rfl | h2
          · exact absurd hcond hc
          · exact ⟨pr, h2, hcond⟩

/-- C4 (amended).  With an active `DrugInteraction` rule resolved, the
check yields its single `Warning` `DRUG_INTERACTION` alert exactly when
some declared pair `(drugA, drugB)` satisfies: the new item's lowercased
name is a substring of `drugA` and `drugB` is exactly equal to one of the
patient's lowered active-medication names, or the symmetric case.  (In
particular, in the claim's warfarin/aspirin scenario neither side holds,
so no alert is produced — see the counterexample.) -/
theorem spec_C4 (db : DB) (patient : Patient) (item : OrderableItem) (rule : CDSRule)
    (hmed : item.item_type = "Medication")
    (hrule : db.cds_rules.find? (fun r => r.rule_type == "DrugInteraction" && r.is_active)
      = Option.some rule) :
    (∃ m, check_drug_drug_interactions db patient item
        = [{ type := "DRUG_INTERACTION", message := m, severity := "Warning" }])
      ↔ ∃ pr ∈ rule.interactions,
          ((strIn (strLower item.name) pr.1 && (active_med_names db patient).contains pr.2)
            || (strIn (strLower item.name) pr.2 && (active_med_names db patient).contains pr.1))
            = true := by
  have hrun : check_drug_drug_interactions db patient item
      = interactionScan item (active_med_names db patient) rule.interactions := by
    unfold check_drug_drug_interactions
    rw [if_neg (by simp [hmed]), hrule]
  rw [hrun]
  exact interactionScan_match_iff item (active_med_names db patient) rule.interactions

/-- A rule whose tokens are full item names, the one shape the source's
condition can match. -/
def rulePlain : CDSRule :=
  { rule_type := "DrugInteraction", is_active := true,
    interactions := [("aspirin 81mg", "warfarin 5mg")] }

/-- Same state as the example scenario but with the full-name rule. -/
def dbInteraction2 : DB :=
  { patients := [patientA], items := [itemAspirinPlain, itemWarfarin], orders := [],
    allergies := [], medications := [medWarfarin], cds_rules := [rulePlain] }

/-- C4 witness: with full-item-name rule tokens the check does fire with
its single Warning alert. -/
theorem spec_C4_witness :
    ∃ m, check_drug_drug_interactions dbInteraction2 patientA itemAspirinPlain
      = [{ type := "DRUG_INTERACTION", message := m, severity := "Warning" }] :=
  (spec_C4 dbInteraction2 patientA itemAspirinPlain rulePlain rfl (by decide)).mpr
    ⟨("aspirin 81mg", "warfarin 5mg"), by decide, by decide⟩

/-! ## C6: duplicate active order warns but does not block -/

/-- C6.  If an `Active` order for (patient, item) already exists, and
nothing else intervenes (no allergy match — the only Critical source — and
a dose check that completes), then the evaluation contains exactly one
`DUPLICATE_ORDER` alert, every `DUPLICATE_ORDER` alert carries `Warning`
severity, and the submission is not blocked: the new order is still
created in `PendingSignature`. -/
theorem spec_C6 (db : DB) (patient : Patient) (item : OrderableItem) (user : User)
    (order_data : PyDict) (new_order_id : String)
    (hdup : ∃ o ∈ db.orders,
      (o.patient_id == patient.id && o.orderable_item_id == item.id && o.status == "Active") = true)
    (hnoall : check_for_allergies db patient item = [])
    (hitem : getItem db (dictGet order_data "orderable_item_id") = Option.some item)
    (hdose : ∃ a4, check_dose_range item order_data = Except.ok a4) :
    ∃ alerts,
      execute_cds_checks db patient item order_data = Except.ok alerts
      ∧ (alerts.filter (fun a => a.type == "DUPLICATE_ORDER")).length = 1
      ∧ (∀ a ∈ alerts, a.type = "DUPLICATE_ORDER" → a.severity = "Warning")
      ∧ (pending_order patient user order_data new_order_id item).status = "PendingSignature"
      ∧ create_new_order db patient user order_data new_order_id
          = Except.ok
              (CreateResult.created (pending_order patient user order_data new_order_id item) alerts,
               { db with orders := db.orders ++ [pending_order patient user order_data new_order_id item] }) := by
  rcases hdose with ⟨a4, h4⟩
  have hexec := execute_cds_checks_of_dose db patient item order_data a4 h4
  have hfind : ∃ o, db.orders.find? (fun o =>
      o.patient_id == patient.id && o.orderable_item_id == item.id && o.status == "Active")
        = Option.some o := by
    cases hf : db.orders.find? (fun o =>
        o.patient_id == patient.id && o.orderable_item_id == item.id && o.status == "Active") with
    | some o2 => exact ⟨o2, rfl⟩
    | none =>
        rcases hdup with ⟨o, ho, hp⟩
        have := List.find?_eq_none.mp hf o ho
        exact absurd hp this
  rcases hfind with ⟨o, hf⟩
  have hdupEq : check_for_duplicate_orders db patient item
      = [{ type := "DUPLICATE_ORDER",
           message := "Warning: An active order for " ++ item.name
             ++ " already exists for this patient.",
           severity := "Warning" }] := by
    unfold check_for_duplicate_orders
    rw [hf]
  have hanyf : ((check_for_duplicate_orders db patient item ++ check_for_allergies db patient item
      ++ check_drug_drug_interactions db patient item ++ a4).any
        (fun a => a.severity == "Critical")) = false := by
    have hnot : ¬ ((check_for_duplicate_orders db patient item ++ check_for_allergies db patient item
        ++ check_drug_drug_interactions db patient item ++ a4).any
          (fun a => a.severity == "Critical")) = true := by
      intro hany
      exact (execute_cds_checks_any_critical_iff db patient item order_data _ hexec).mp hany hnoall
    exact eq_false_of_ne_true hnot
  refine ⟨_, hexec, ?_, ?_, rfl, ?_⟩
  · have h3 : ∀ a ∈ check_drug_drug_interactions db patient item,
        ¬ (a.type == "DUPLICATE_ORDER") = true := by
      intro a ha
      rcases check_drug_drug_interactions_mem db patient item a ha with ⟨ht, _⟩
      simp [ht]
    have h4f : ∀ a ∈ a4, ¬ (a.type == "DUPLICATE_ORDER") = true := by
      intro a ha
      rcases check_dose_range_mem item order_data a4 h4 a ha with ⟨ht, _⟩
      rcases ht with ht | ht <;> simp [ht]
    rw [hdupEq, hnoall]
    simp [List.filter_append, List.filter_eq_nil_iff.mpr h3, List.filter_eq_nil_iff.mpr h4f]
  · intro a ha hta
    rcases mem_execute_cds_checks db patient item order_data _ a hexec ha with ⟨_, himp⟩
    refine himp ?_
    rw [hta]
    decide
  · have hrun := create_new_order_run db patient user order_data new_order_id item _ hitem hexec
    rw [if_neg (by rw [hanyf]; decide)] at hrun
    exact hrun

/-- An existing signed (Active) aspirin order for patient A. -/
def orderActive : Order :=
  { id := "ord-0", patient_id := "patient-a", orderable_item_id := "item-aspirin",
    order_details := PyVal.str "old", priority := PyVal.str "Routine", status := "Active",
    ordering_physician_id := 7, signed_at := Option.some 1, signed_by_user_id := Option.some 7,
    discontinued_at := Option.none, discontinued_by_user_id := Option.none,
    discontinuation_reason := Option.none }

/-- Patient A already has the active aspirin order and no allergies. -/
def dbDup : DB :=
  { patients := [patientA], items := [itemAspirin], orders := [orderActive],
    allergies := [], medications := [], cds_rules := [] }

/-- C6 witness: resubmitting aspirin over the existing active order warns
(one `DUPLICATE_ORDER`) and still creates the pending order. -/
theorem spec_C6_witness :
    ∃ alerts,
      execute_cds_checks dbDup patientA itemAspirin dataAspirin = Except.ok alerts
      ∧ (alerts.filter (fun a => a.type == "DUPLICATE_ORDER")).length = 1
      ∧ (∀ a ∈ alerts, a.type = "DUPLICATE_ORDER" → a.severity = "Warning")
      ∧ (pending_order patientA userA dataAspirin "new-3" itemAspirin).status = "PendingSignature"
      ∧ create_new_order dbDup patientA userA dataAspirin "new-3"
          = Except.ok
              (CreateResult.created (pending_order patientA userA dataAspirin "new-3" itemAspirin) alerts,
               { dbDup with
                  orders := dbDup.orders ++ [pending_order patientA userA dataAspirin "new-3" itemAspirin] }) :=
  spec_C6 dbDup patientA itemAspirin userA dataAspirin "new-3"
    ⟨orderActive, by decide, by decide⟩ (by decide) (by decide) ⟨[], by decide⟩

/-! ## C7: check functions and non-string unit values -/

/-- Store with only the lisinopril row (dose bounds configured). -/
def dbLis : DB :=
  { patients := [patientA], items := [itemLisinopril], orders := [],
    allergies := [], medications := [], cds_rules := [] }

/-- A payload whose unit is a (truthy) number rather than a string. -/
def dataBadUnit : PyDict :=
  [("dose", PyVal.num (PyNum.ofNat 5)), ("unit", PyVal.num (PyNum.ofNat 7))]

/-- C7 counterexample: with a parsable dose and a truthy non-string unit,
`ordered_unit.lower()` sits outside the `try` block of
`_check_dose_range`, so the check — and hence the whole evaluation —
raises `AttributeError` instead of returning zero alerts. -/
theorem spec_C7_counterexample :
    check_dose_range itemLisinopril dataBadUnit = Except.error PyErr.attributeError
      ∧ execute_cds_checks dbLis patientA itemLisinopril dataBadUnit
          = Except.error PyErr.attributeError := by
  decide

/-- When the payload's unit is absent or a string, the dose check always
completes with an alert list (the dose parse failures are all caught). -/
theorem check_dose_range_ok_of_unit (item : OrderableItem) (details : PyDict)
    (hu : dictGet details "unit" = PyVal.none ∨ ∃ s, dictGet details "unit" = PyVal.str s) :
    ∃ l, check_dose_range item details = Except.ok l := by
  unfold check_dose_range
  by_cases h1 : (item.item_type != "Medication" || optQFalsy item.max_dose) = true
  · rw [if_pos h1]
    exact ⟨[], rfl⟩
  · rw [if_neg h1]
    cases hp : pyFloat (dictGet details "dose") with
    | error e => exact ⟨[], rfl⟩
    | ok d =>
        dsimp only
        by_cases h2 : (pyTruthy (dictGet details "unit") && optStrTruthy item.default_dose_unit) = true
        · rcases hu with hu | ⟨s, hu⟩
          · rw [hu] at h2
            simp [pyTruthy] at h2
          · rw [if_pos h2, hu]
            simp only [pyLower]
            by_cases h3 : (strLower s != strLower (item.default_dose_unit.getD "")) = true
            · rw [if_pos h3]
              exact ⟨_, rfl⟩
            · rw [if_neg h3]
              exact ⟨_, rfl⟩
        · rw [if_neg h2]
          exact ⟨_, rfl⟩

/-- C7 (amended).  For every store, patient, item and payload whose unit
value is absent or a string, the evaluation never raises: a missing,
non-numeric or otherwise unparsable dose silently contributes zero alerts.
(A present, truthy, *non-string* unit instead escapes as an uncaught
`AttributeError` — see the counterexample.) -/
theorem spec_C7 (db : DB) (patient : Patient) (item : OrderableItem) (details : PyDict)
    (hu : dictGet details "unit" = PyVal.none ∨ ∃ s, dictGet details "unit" = PyVal.str s) :
    ∃ alerts, execute_cds_checks db patient item details = Except.ok alerts := by
  rcases check_dose_range_ok_of_unit item details hu with ⟨l, hl⟩
  exact ⟨_, execute_cds_checks_of_dose db patient item details l hl⟩

/-- C7 witness: dose `"abc"` is unparsable and the unit is a string, so
the evaluation completes (with an alert list) rather than raising. -/
theorem spec_C7_witness :
    ∃ alerts, execute_cds_checks dbLis patientA itemLisinopril
      [("dose", PyVal.str "abc"), ("unit", PyVal.str "mg")] = Except.ok alerts :=
  spec_C7 dbLis patientA itemLisinopril [("dose", PyVal.str "abc"), ("unit", PyVal.str "mg")]
    (Or.inr ⟨"mg", by decide⟩)

/-! ## C9: severity invariants, per-check bounds, and the blocking gate -/

/-- C9.  On any completed evaluation: `ALLERGY_ALERT` is the only alert
type ever carrying `Critical` severity (every other alert is a `Warning`);
each of the duplicate/allergy/interaction checks contributes at most one
alert, bounding the evaluator's output by four; and `create_new_order`
returns the blocked result exactly when the allergy check matched. -/
theorem spec_C9 (db : DB) (patient : Patient) (user : User) (order_data : PyDict)
    (new_order_id : String) (item : OrderableItem) (alerts : List Alert)
    (hitem : getItem db (dictGet order_data "orderable_item_id") = Option.some item)
    (hcds : execute_cds_checks db patient item order_data = Except.ok alerts) :
    (∀ a ∈ alerts, a.severity = "Critical" → a.type = "ALLERGY_ALERT")
    ∧ (∀ a ∈ alerts, a.type ≠ "ALLERGY_ALERT" → a.severity = "Warning")
    ∧ (check_for_duplicate_orders db patient item).length ≤ 1
    ∧ (check_for_allergies db patient item).length ≤ 1
    ∧ (check_drug_drug_interactions db patient item).length ≤ 1
    ∧ alerts.length ≤ 4
    ∧ (create_new_order db patient user order_data new_order_id
          = Except.ok (CreateResult.blocked alerts "Order blocked by critical CDS alert(s)." 400, db)
        ↔ check_for_allergies db patient item ≠ []) := by
  refine ⟨?_, ?_, check_for_duplicate_orders_length db patient item,
    check_for_allergies_length db patient item,
    check_drug_drug_interactions_length db patient item, ?_, ?_⟩
  · intro a ha hc
    exact ((mem_execute_cds_checks db patient item order_data alerts a hcds ha).1 hc).1
  · intro a ha hn
    exact (mem_execute_cds_checks db patient item order_data alerts a hcds ha).2 hn
  · rcases execute_cds_checks_decomp db patient item order_data alerts hcds with ⟨a4, h4, rfl⟩
    have l1 := check_for_duplicate_orders_length db patient item
    have l2 := check_for_allergies_length db patient item
    have l3 := check_drug_drug_interactions_length db patient item
    have l4 := check_dose_range_length item order_data a4 h4
    simp only [List.length_append]
    omega
  · have hrun := create_new_order_run db patient user order_data new_order_id item alerts hitem hcds
    by_cases hany : (alerts.any fun a => a.severity == "Critical") = true
    · rw [if_pos hany] at hrun
      constructor
      · intro _
        exact (execute_cds_checks_any_critical_iff db patient item order_data alerts hcds).mp hany
      · intro _
        exact hrun
    · rw [if_neg hany] at hrun
      constructor
      · intro hblk
        rw [hrun] at hblk
        simp at hblk
      · intro hne
        exact absurd
          ((execute_cds_checks_any_critical_iff db patient item order_data alerts hcds).mpr hne) hany

/-- C9 witness: the aspirin-allergy scenario — the single alert is the
critical allergy alert, bounds hold, and the submission is blocked (the
allergy check is non-empty). -/
theorem spec_C9_witness :
    (∀ a ∈ check_for_allergies dbAllergy patientA itemAspirin,
        a.severity = "Critical" → a.type = "ALLERGY_ALERT")
    ∧ (∀ a ∈ check_for_allergies dbAllergy patientA itemAspirin,
        a.type ≠ "ALLERGY_ALERT" → a.severity = "Warning")
    ∧ (check_for_duplicate_orders dbAllergy patientA itemAspirin).length ≤ 1
    ∧ (check_for_allergies dbAllergy patientA itemAspirin).length ≤ 1
    ∧ (check_drug_drug_interactions dbAllergy patientA itemAspirin).length ≤ 1
    ∧ (check_for_allergies dbAllergy patientA itemAspirin).length ≤ 4
    ∧ (create_new_order dbAllergy patientA userA dataAspirin "new-9"
          = Except.ok (CreateResult.blocked (check_for_allergies dbAllergy patientA itemAspirin)
              "Order blocked by critical CDS alert(s)." 400, dbAllergy)
        ↔ check_for_allergies dbAllergy patientA itemAspirin ≠ []) :=
  spec_C9 dbAllergy patientA userA dataAspirin "new-9" itemAspirin
    (check_for_allergies dbAllergy patientA itemAspirin) (by decide) (by decide)

/-! ## C10: the route handler's inline checks bound its alert types -/

theorem mem_routeAllergyScan (item : OrderableItem) (l : List PatientAllergy) (al : Alert)
    (h : al ∈ routeAllergyScan item l) :
    al.type = "ALLERGY_ALERT" ∧ al.severity = "Critical" := by
  induction l with
  | nil => simp [routeAllergyScan] at h
  | cons a rest ih =>
      by_cases hc : (strIn (strLower item.name) (strLower a.allergen_name)
          || (match item.generic_name with
              | Option.some g => (g != "") && strIn (strLower g) (strLower a.allergen_name)
              | Option.none => false)) = true
      · simp only [routeAllergyScan, if_pos hc, List.mem_singleton] at h
        rw [h]
        exact ⟨rfl, rfl⟩
      · simp only [routeAllergyScan, if_neg hc] at h
        exact ih h

theorem mem_route_alerts (db : DB) (patient : Patient) (item : OrderableItem) (al : Alert)
    (h : al ∈ route_alerts db patient item) :
    al.type = "DUPLICATE_ORDER" ∨ al.type = "ALLERGY_ALERT" := by
  unfold route_alerts at h
  rcases List.mem_append.mp h with h1 | h2
  · unfold route_duplicate_alerts at h1
    split at h1
    · simp only [List.mem_singleton] at h1
      rw [h1]
      exact Or.inl rfl
    · simp at h1
  · unfold route_allergy_alerts at h2
    split at h2
    · exact Or.inr (mem_routeAllergyScan item _ al h2).1
    · simp at h2

/-- C10 (implicit).  The `create_order` route handler computes only its
inline duplicate-order and allergy checks (`route_alerts`) and never
invokes `execute_cds_checks`, so every alert in any of its responses —
blocked `cds_alerts` or success `cds_warnings` — has type
`DUPLICATE_ORDER` or `ALLERGY_ALERT`; `DRUG_INTERACTION`,
`DOSE_RANGE_ALERT` and `DOSE_UNIT_MISMATCH` never appear on this path. -/
theorem spec_C10 (db : DB) (user : User) (patient_id : String) (data : PyDict)
    (new_order_id : String) (a : Alert)
    (ha : a ∈ resultAlerts (create_order_route db user patient_id data new_order_id).1) :
    a.type = "DUPLICATE_ORDER" ∨ a.type = "ALLERGY_ALERT" := by
  unfold create_order_route at ha
  split at ha
  · simp [resultAlerts] at ha
  · split at ha
    · simp [resultAlerts] at ha
    · rename_i patient _
      split at ha
      · simp [resultAlerts] at ha
      · rename_i item _
        split at ha
        · simp only [resultAlerts] at ha
          exact mem_route_alerts db patient item a ha
        · simp only [resultAlerts] at ha
          exact mem_route_alerts db patient item a ha

/-- C10 witness: in the duplicate-order state the route responds 201 with
one `cds_warnings` entry, and that entry's type is indeed one of the two
inline-check types. -/
theorem spec_C10_witness :
    ({ type := "DUPLICATE_ORDER",
       message := "An active order for Aspirin 81mg Tablet already exists (Order ID: ord-0).",
       severity := "Warning" } : Alert).type = "DUPLICATE_ORDER"
      ∨ ({ type := "DUPLICATE_ORDER",
           message := "An active order for Aspirin 81mg Tablet already exists (Order ID: ord-0).",
           severity := "Warning" } : Alert).type = "ALLERGY_ALERT" :=
  spec_C10 dbDup userA "patient-a" dataAspirin "new-10" _ (by decide)

end Medicard
